import Mathlib

/-!
Verification of the clla_backend_server commitment-ingestion engine.

Shallow embedding of the Python sources:
* `credit_engine.py`                      — credit metering and deduction
* `services/gmail/commitments/status_calculator.py` — status recomputation
* `services/gmail/extract_initial_commitments.py`   — extraction post-processing
* `services/gmail/deadline_parser.py`     — deterministic deadline normalization
* `tools/gmail/process_new_email.py`      — live pipeline dedupe and persistence
* `routes/commitment_routes.py`           — delete / restore with TTL shadow
* `services/composio/connection_state_manager.py`   — connection state machine
* `main.py`                               — webhook credit gate

Python `float` values are modelled as `ℚ`; Python `date` objects as their
proleptic-Gregorian ordinal (`Int`, as returned by `date.toordinal()`, so
`weekday d = (d - 1) mod 7` with Monday = 0, matching `date.weekday()`).
Python dicts are modelled as ordered association lists with unique keys.
-/

namespace Clla

/-- A Python value as stored in a Firestore document dict. -/
inductive Val where
  | vNull
  | vBool (b : Bool)
  | vInt (n : Int)
  | vStr (s : String)
  | vRat (q : ℚ)
  | vDate (d : Int)
  deriving DecidableEq

/-- Generic ordered association list lookup (first matching key). -/
def assocGet {α : Type} : List (String × α) → String → Option α
  | [], _ => none
  | (k', v') :: rest, k => if k' == k then some v' else assocGet rest k

/-- Python dict assignment `d[k] = v`: replace the value at an existing
key in place, otherwise append the new key at the end. -/
def assocSet {α : Type} : List (String × α) → String → α → List (String × α)
  | [], k, v => [(k, v)]
  | (k', v') :: rest, k, v =>
    if k' == k then (k, v) :: rest else (k', v') :: assocSet rest k v

/-- Remove a key (models a keyed delete in Firestore / Redis). -/
def assocRemove {α : Type} (l : List (String × α)) (k : String) : List (String × α) :=
  l.filter (fun p => !(p.1 == k))

/-- A Python dict of `Val`s (a Firestore document). -/
abbrev PyDict := List (String × Val)

/-- `d.get(k)` (missing key ↦ `None`, modelled as `none`). -/
def dictGet (d : PyDict) (k : String) : Option Val := assocGet d k

/-- `d[k] = v`. -/
def dictSet (d : PyDict) (k : String) (v : Val) : PyDict := assocSet d k v

/-- `d.get(k, dft)`: Python returns the default only when the key is missing. -/
def pyGetD (d : PyDict) (k : String) (dft : Val) : Val := (dictGet d k).getD dft

/-- Python truthiness of an optional value (`None`, `False`, `0`, `""` are falsy). -/
def truthy : Option Val → Bool
  | none => false
  | some .vNull => false
  | some (.vBool b) => b
  | some (.vInt n) => !(n == 0)
  | some (.vStr s) => !(s == "")
  | some (.vRat q) => !(q == 0)
  | some (.vDate _) => true

theorem assocGet_assocSet_self {α : Type} (l : List (String × α)) (k : String) (v : α) :
    assocGet (assocSet l k v) k = some v := by
  induction l with
  | nil => simp [assocGet, assocSet]
  | cons p rest ih =>
    by_cases h : p.1 == k
    · simp [assocGet, assocSet, h]
    · simp [assocGet, assocSet, h, ih]

theorem assocGet_assocSet_ne {α : Type} (l : List (String × α)) (k k' : String) (v : α)
    (h : k' ≠ k) : assocGet (assocSet l k v) k' = assocGet l k' := by
  induction l with
  | nil =>
    simp [assocGet, assocSet]
    exact fun hkk => absurd hkk.symm h
  | cons p rest ih =>
    by_cases hp : p.1 == k
    · have hpk : p.1 = k := by simpa using hp
      have hne : ¬ (k = k') := fun hkk => h hkk.symm
      simp [assocGet, assocSet, hp, hpk, hne]
    · simp only [assocSet, hp, if_neg]
      by_cases hp' : p.1 == k'
      · simp [assocGet, hp']
      · simp [assocGet, hp', ih]

theorem assocSet_self_of_get {α : Type} (l : List (String × α)) (k : String) (v : α)
    (h : assocGet l k = some v) : assocSet l k v = l := by
  induction l with
  | nil => simp [assocGet] at h
  | cons p rest ih =>
    by_cases hp : p.1 == k
    · have hpk : p.1 = k := by simpa using hp
      simp [assocGet, hp] at h
      simp [assocSet, hp, ← hpk, ← h]
    · simp [assocGet, hp] at h
      simp [assocSet, hp, ih h]

theorem assocGet_assocRemove_self {α : Type} (l : List (String × α)) (k : String) :
    assocGet (assocRemove l k) k = none := by
  induction l with
  | nil => simp [assocGet, assocRemove]
  | cons p rest ih =>
    by_cases hp : p.1 == k
    · simpa [assocRemove, hp] using ih
    · simpa [assocRemove, List.filter, hp, assocGet] using ih

/-! ## Credit engine (`credit_engine.py`)

`deduct_credits` runs a Firestore transaction that reads
`(credits_remaining, credits_used)`, writes
`new_remaining = max(remaining - credits_spent, 0)` and
`new_used = used + credits_spent`, and after the commit calls the pause
hook when `new_remaining <= 0`.  `credits_total` is never touched by the
transaction. -/

/-- The credit fields of a user document. -/
structure Credits where
  total : ℚ
  used : ℚ
  remaining : ℚ
  deriving DecidableEq

/-- The transactional body of `deduct_credits`: one atomic debit. -/
def deductTxn (s : Credits) (creditsSpent : ℚ) : Credits :=
  { s with
    remaining := max (s.remaining - creditsSpent) 0
    used := s.used + creditsSpent }

/-- A finite sequence of `deduct_credits` transactions applied in order. -/
def deductSeq (s : Credits) (amounts : List ℚ) : Credits :=
  amounts.foldl deductTxn s

/-- Result of a full `deduct_credits` call: the transaction may raise
`ValueError` when the user document is missing; otherwise it returns the
updated state together with the number of pause-hook invocations. -/
inductive DeductResult where
  | userMissing
  | ok (state : Credits) (pauseInvocations : Nat)
  deriving DecidableEq

/-- `deduct_credits(user_id, credits_spent)` including the post-commit
auto-pause block.  `hookFails` models the outcome of the best-effort call
to `pause_composio_trigger`; the source wraps it in `try/except`, so a
failure is logged and the committed debit stands either way.

Modelled from the spec: `pause_composio_trigger` itself is imported by
`credit_engine.py` but its definition is not present under `src/`; per the
spec it is a best-effort pause of the user's outbound trigger whose
failure is logged, not fatal. -/
def deduct_credits (hookFails : Bool) (user : Option Credits) (creditsSpent : ℚ) :
    DeductResult :=
  match user with
  | none => .userMissing
  | some s =>
    let s' := deductTxn s creditsSpent
    if s'.remaining ≤ 0 then
      -- try: pause_composio_trigger(user_id) ... except: logged, not re-raised
      let _pauseOutcome := hookFails
      .ok s' 1
    else
      .ok s' 0

theorem deductSeq_invariant (total : ℚ) (amounts : List ℚ) :
    ∀ (u r : ℚ), 0 ≤ r → (∀ a ∈ amounts, 0 ≤ a) →
      (deductSeq ⟨total, u, r⟩ amounts).total = total ∧
      (deductSeq ⟨total, u, r⟩ amounts).used = u + amounts.sum ∧
      (deductSeq ⟨total, u, r⟩ amounts).remaining = max (r - amounts.sum) 0 := by
  induction amounts with
  | nil =>
    intro u r hr _
    refine ⟨rfl, by simp [deductSeq], ?_⟩
    show r = max (r - 0) 0
    rw [sub_zero, max_eq_left hr]
  | cons a rest ih =>
    intro u r _ hpos
    have ha : 0 ≤ a := hpos a (List.mem_cons_self a rest)
    have hrest : ∀ x ∈ rest, 0 ≤ x := fun x hx => hpos x (List.mem_cons_of_mem a hx)
    have hrestsum : 0 ≤ rest.sum := List.sum_nonneg hrest
    have hstep := ih (u + a) (max (r - a) 0) (le_max_right _ _) hrest
    have hfold : deductSeq ⟨total, u, r⟩ (a :: rest) =
        deductSeq ⟨total, u + a, max (r - a) 0⟩ rest := rfl
    rw [hfold]
    refine ⟨hstep.1, ?_, ?_⟩
    · rw [hstep.2.1, List.sum_cons]; ring
    · rw [hstep.2.2, List.sum_cons]
      rcases le_total (r - a) 0 with hra | hra
      · rw [max_eq_right hra]
        rw [max_eq_right (by linarith), max_eq_right (by linarith)]
      · rw [max_eq_left hra]
        congr 1
        ring

/-- C1 counterexample: starting from `(total, used, remaining) = (10, 0, 10)`,
a single deduct of `15` (non-negative, summing to `S = 15`) leaves
`used = 15 ≠ min(10, 15) = 10` and `used + remaining = 15 ≠ 10`, refuting
the claimed invariant: `deduct_credits` accumulates the full spent amount
into `credits_used` without capping it at the initial total. -/
theorem claim_C1_counterexample :
    ¬ ((deductSeq ⟨10, 0, 10⟩ [15]).used = min (10 : ℚ) 15 ∧
       (deductSeq ⟨10, 0, 10⟩ [15]).remaining = max 0 ((10 : ℚ) - 15) ∧
       (deductSeq ⟨10, 0, 10⟩ [15]).used + (deductSeq ⟨10, 0, 10⟩ [15]).remaining
         = (10 : ℚ)) := by
  intro h
  have h1 := h.1
  rw [deductSeq, List.foldl_cons, List.foldl_nil] at h1
  norm_num [deductTxn] at h1

/-- C1 (amended): for a user whose credit fields start at
`(total = initial_total, used = 0, remaining = initial_total)` with
`initial_total ≥ 0`, after any finite sequence of deducts with non-negative
amounts summing to `S`, the stored fields satisfy `used = S` and
`remaining = max(0, initial_total − S)`; consequently `used = min(initial_total, S)`
and `used + remaining = initial_total` hold whenever `S ≤ initial_total`, but not in
general: over-deduction leaves `used = S > initial_total`. -/
theorem deduct_credits_sequence_amended (total : ℚ) (amounts : List ℚ)
    (htot : 0 ≤ total) (hpos : ∀ a ∈ amounts, 0 ≤ a) :
    (deductSeq ⟨total, 0, total⟩ amounts).used = amounts.sum ∧
    (deductSeq ⟨total, 0, total⟩ amounts).remaining = max 0 (total - amounts.sum) ∧
    (amounts.sum ≤ total →
      (deductSeq ⟨total, 0, total⟩ amounts).used = min total amounts.sum ∧
      (deductSeq ⟨total, 0, total⟩ amounts).used
        + (deductSeq ⟨total, 0, total⟩ amounts).remaining = total) := by
  obtain ⟨_, h2, h3⟩ := deductSeq_invariant total amounts 0 total htot hpos
  rw [zero_add] at h2
  refine ⟨h2, by rw [h3, max_comm], ?_⟩
  intro hle
  constructor
  · rw [h2, min_eq_right hle]
  · rw [h2, h3, max_eq_left (by linarith)]
    ring

/-- Witness for the amended C1 at `initial_total = 10`, `amounts = [3, 4]`. -/
theorem deduct_credits_sequence_amended_witness :
    (0 : ℚ) ≤ 10 ∧ (∀ a ∈ ([3, 4] : List ℚ), 0 ≤ a) ∧
    ((deductSeq ⟨10, 0, 10⟩ [3, 4]).used = ([3, 4] : List ℚ).sum ∧
     (deductSeq ⟨10, 0, 10⟩ [3, 4]).remaining = max 0 ((10 : ℚ) - ([3, 4] : List ℚ).sum) ∧
     (([3, 4] : List ℚ).sum ≤ 10 →
       (deductSeq ⟨10, 0, 10⟩ [3, 4]).used = min (10 : ℚ) ([3, 4] : List ℚ).sum ∧
       (deductSeq ⟨10, 0, 10⟩ [3, 4]).used
         + (deductSeq ⟨10, 0, 10⟩ [3, 4]).remaining = (10 : ℚ))) := by
  have hpos : ∀ a ∈ ([3, 4] : List ℚ), 0 ≤ a := by
    intro a ha
    simp only [List.mem_cons, List.not_mem_nil, or_false] at ha
    rcases ha with h | h <;> rw [h] <;> norm_num
  exact ⟨by norm_num, hpos,
    deduct_credits_sequence_amended 10 [3, 4] (by norm_num) hpos⟩

/-- C2: for a user with `credits_remaining = r > 0`, `deduct_credits` with
amount exactly `r` sets `credits_remaining` to exactly `0` and invokes the
pause hook exactly once; in general the hook is attempted exactly when the
post-transaction remaining is `≤ 0` (and at most once per call), the
committed state is always the transaction result, and a hook failure does
not undo the debit (the result does not depend on the hook's outcome). -/
theorem deduct_credits_exhaustion_pause (hookFails : Bool) (total used r : ℚ)
    (_hr : 0 < r) :
    deduct_credits hookFails (some ⟨total, used, r⟩) r = .ok ⟨total, used + r, 0⟩ 1 ∧
    (∀ (s : Credits) (a : ℚ) (s' : Credits) (n : Nat),
      deduct_credits hookFails (some s) a = .ok s' n →
      ((n = 1 ↔ s'.remaining ≤ 0) ∧ n ≤ 1 ∧ s' = deductTxn s a)) ∧
    (∀ (u : Option Credits) (a : ℚ),
      deduct_credits true u a = deduct_credits false u a) := by
  refine ⟨?_, ?_, ?_⟩
  · simp [deduct_credits, deductTxn, sub_self]
  · intro s a s' n h
    rw [deduct_credits] at h
    split at h
    · cases h
      refine ⟨?_, le_refl 1, rfl⟩
      simp only [true_iff]
      assumption
    · cases h
      refine ⟨?_, Nat.zero_le 1, rfl⟩
      constructor
      · intro h01; exact absurd h01 (by norm_num)
      · intro hle
        exact absurd hle (by assumption)
  · intro u a
    cases u <;> rfl

/-- Witness for C2 at `hookFails = true`, `(total, used, remaining) = (5, 0, 5)`,
amount `5`. -/
theorem deduct_credits_exhaustion_pause_witness :
    (0 : ℚ) < 5 ∧
    (deduct_credits true (some ⟨5, 0, 5⟩) 5 = .ok ⟨5, 0 + 5, 0⟩ 1 ∧
     (∀ (s : Credits) (a : ℚ) (s' : Credits) (n : Nat),
       deduct_credits true (some s) a = .ok s' n →
       ((n = 1 ↔ s'.remaining ≤ 0) ∧ n ≤ 1 ∧ s' = deductTxn s a)) ∧
     (∀ (u : Option Credits) (a : ℚ),
       deduct_credits true u a = deduct_credits false u a)) :=
  ⟨by norm_num, deduct_credits_exhaustion_pause true 5 0 5 (by norm_num)⟩

/-! ## Status calculator (`services/gmail/commitments/status_calculator.py`)

`recalculate_status(commitment, today)` mutates and returns the commitment
dict.  If the commitment is (truthily) completed, it re-writes the three
status fields with their current values, defaulting any that are missing.
Otherwise the triple `(status, days_overdue, overdue_flag)` is derived
from `deadline_iso`: a string is parsed with `datetime.fromisoformat`
(modelled by the `parseIso` argument; a `ValueError` yields the
no-deadline triple), a `date` object is used directly, and anything else
(including falsy values) yields the no-deadline triple. -/

/-- The comparison block of `recalculate_status` once a deadline date is known. -/
def statusTriple (deadlineDate today : Int) : String × Int × Bool :=
  if deadlineDate < today then ("overdue", today - deadlineDate, true)
  else if deadlineDate = today then ("due_today", 0, false)
  else ("active", 0, false)

/-- The `(status, days_overdue, overdue_flag)` value computed for a
non-completed commitment from its (raw) `deadline_iso` field. -/
def recalcTriple (parseIso : String → Option Int) (dl : Option Val) (today : Int) :
    String × Int × Bool :=
  if truthy dl then
    match dl with
    | some (.vStr s) =>
      match parseIso s with
      | some dd => statusTriple dd today
      | none => ("no_deadline", 0, false)   -- ValueError from fromisoformat
    | some (.vDate dd) => statusTriple dd today
    | _ => ("no_deadline", 0, false)        -- not str/date: deadline_date stays None
  else ("no_deadline", 0, false)

/-- The completed branch of `recalculate_status`: re-write the three status
fields with their current values, defaulting missing ones. -/
def recalcCompleted (c : PyDict) : PyDict :=
  let c1 := dictSet c "status" (pyGetD c "status" (.vStr "no_deadline"))
  let c2 := dictSet c1 "days_overdue" (pyGetD c1 "days_overdue" (.vInt 0))
  dictSet c2 "overdue_flag" (pyGetD c2 "overdue_flag" (.vBool false))

/-- The non-completed branch of `recalculate_status`: write the derived triple. -/
def recalcPending (parseIso : String → Option Int) (c : PyDict) (today : Int) : PyDict :=
  let res := recalcTriple parseIso (dictGet c "deadline_iso") today
  let c1 := dictSet c "status" (.vStr res.1)
  let c2 := dictSet c1 "days_overdue" (.vInt res.2.1)
  dictSet c2 "overdue_flag" (.vBool res.2.2)

/-- `recalculate_status(commitment, today)`. -/
def recalculate_status (parseIso : String → Option Int) (commitment : PyDict)
    (today : Int) : PyDict :=
  if truthy (dictGet commitment "completed") then recalcCompleted commitment
  else recalcPending parseIso commitment today

theorem recalculate_status_completed_eq (parseIso : String → Option Int)
    (c : PyDict) (today : Int) (hc : truthy (dictGet c "completed") = true) :
    recalculate_status parseIso c today = recalcCompleted c := by
  simp [recalculate_status, hc]

theorem recalculate_status_pending_eq (parseIso : String → Option Int)
    (c : PyDict) (today : Int) (hc : truthy (dictGet c "completed") = false) :
    recalculate_status parseIso c today = recalcPending parseIso c today := by
  simp [recalculate_status, hc]

/-- The three derived status fields of a commitment dict. -/
def statusFields (c : PyDict) : Option Val × Option Val × Option Val :=
  (dictGet c "status", dictGet c "days_overdue", dictGet c "overdue_flag")

theorem statusFields_set (c : PyDict) (st : String) (dov : Int) (fl : Bool) :
    statusFields (dictSet (dictSet (dictSet c "status" (.vStr st))
        "days_overdue" (.vInt dov)) "overdue_flag" (.vBool fl)) =
      (some (.vStr st), some (.vInt dov), some (.vBool fl)) := by
  have h1 : ("status" : String) ≠ "overdue_flag" := by decide
  have h2 : ("status" : String) ≠ "days_overdue" := by decide
  have h3 : ("days_overdue" : String) ≠ "overdue_flag" := by decide
  show (assocGet _ _, assocGet _ _, assocGet _ _) = _
  simp only [dictSet]
  rw [assocGet_assocSet_ne _ _ _ _ h1, assocGet_assocSet_ne _ _ _ _ h2,
      assocGet_assocSet_self, assocGet_assocSet_ne _ _ _ _ h3,
      assocGet_assocSet_self, assocGet_assocSet_self]

theorem statusFields_recalculate_status (parseIso : String → Option Int)
    (c : PyDict) (today : Int) (hc : truthy (dictGet c "completed") = false) :
    statusFields (recalculate_status parseIso c today) =
      (some (.vStr (recalcTriple parseIso (dictGet c "deadline_iso") today).1),
       some (.vInt (recalcTriple parseIso (dictGet c "deadline_iso") today).2.1),
       some (.vBool (recalcTriple parseIso (dictGet c "deadline_iso") today).2.2)) := by
  rw [recalculate_status_pending_eq parseIso c today hc, recalcPending]
  exact statusFields_set c _ _ _

/-- C3: for a non-completed commitment, `recalculate_status` yields
`(overdue, today − d, true)` when the deadline parses to `d < today`,
`(due_today, 0, false)` when `d = today`, `(active, 0, false)` when
`d > today`, and `(no_deadline, 0, false)` when `deadline_iso` is null,
missing, or unparseable.  In particular, `d = today − 1` gives
`days_overdue = today − d = 1`. -/
theorem recalculate_status_cases (parseIso : String → Option Int) (c : PyDict)
    (today d : Int) (s : String)
    (hc : truthy (dictGet c "completed") = false) :
    (dictGet c "deadline_iso" = some (.vStr s) → s ≠ "" → parseIso s = some d →
      ((d < today →
         statusFields (recalculate_status parseIso c today) =
           (some (.vStr "overdue"), some (.vInt (today - d)), some (.vBool true))) ∧
       (d = today →
         statusFields (recalculate_status parseIso c today) =
           (some (.vStr "due_today"), some (.vInt 0), some (.vBool false))) ∧
       (today < d →
         statusFields (recalculate_status parseIso c today) =
           (some (.vStr "active"), some (.vInt 0), some (.vBool false))))) ∧
    ((dictGet c "deadline_iso" = none ∨ dictGet c "deadline_iso" = some .vNull) →
      statusFields (recalculate_status parseIso c today) =
        (some (.vStr "no_deadline"), some (.vInt 0), some (.vBool false))) ∧
    (dictGet c "deadline_iso" = some (.vStr s) → parseIso s = none →
      statusFields (recalculate_status parseIso c today) =
        (some (.vStr "no_deadline"), some (.vInt 0), some (.vBool false))) := by
  have base := statusFields_recalculate_status parseIso c today hc
  refine ⟨?_, ?_, ?_⟩
  · intro hd hs hp
    have hsb : (s == "") = false := beq_eq_false_iff_ne.mpr hs
    refine ⟨?_, ?_, ?_⟩ <;> intro hlt <;> rw [base]
    · simp [recalcTriple, hd, truthy, hsb, hp, statusTriple, hlt]
    · subst hlt
      simp [recalcTriple, hd, truthy, hsb, hp, statusTriple, lt_irrefl]
    · have h1 : ¬ (d < today) := not_lt.mpr hlt.le
      have h2 : d ≠ today := ne_of_gt hlt
      simp [recalcTriple, hd, truthy, hsb, hp, statusTriple, h1, h2]
  · intro hd
    rcases hd with hd | hd <;> rw [base] <;> simp [recalcTriple, hd, truthy]
  · intro hd hp
    rw [base]
    cases hb : (s == "") with
    | true => simp [recalcTriple, hd, truthy, hb]
    | false => simp [recalcTriple, hd, truthy, hb, hp]

/-- Witness for C3 at `deadline_iso = "2025-11-21"` parsing to ordinal
`738846`, with `today = 738847` (one day later). -/
theorem recalculate_status_cases_witness :
    truthy (dictGet [("deadline_iso", Val.vStr "2025-11-21")] "completed") = false ∧
    ((dictGet [("deadline_iso", Val.vStr "2025-11-21")] "deadline_iso"
        = some (.vStr "2025-11-21") → "2025-11-21" ≠ "" →
        (fun t => if t == "2025-11-21" then some (738846 : Int) else none) "2025-11-21"
          = some 738846 →
      (((738846 : Int) < 738847 →
         statusFields (recalculate_status
             (fun t => if t == "2025-11-21" then some (738846 : Int) else none)
             [("deadline_iso", Val.vStr "2025-11-21")] 738847) =
           (some (.vStr "overdue"), some (.vInt ((738847 : Int) - 738846)),
            some (.vBool true))) ∧
       ((738846 : Int) = 738847 →
         statusFields (recalculate_status
             (fun t => if t == "2025-11-21" then some (738846 : Int) else none)
             [("deadline_iso", Val.vStr "2025-11-21")] 738847) =
           (some (.vStr "due_today"), some (.vInt 0), some (.vBool false))) ∧
       ((738847 : Int) < 738846 →
         statusFields (recalculate_status
             (fun t => if t == "2025-11-21" then some (738846 : Int) else none)
             [("deadline_iso", Val.vStr "2025-11-21")] 738847) =
           (some (.vStr "active"), some (.vInt 0), some (.vBool false))))) ∧
     ((dictGet [("deadline_iso", Val.vStr "2025-11-21")] "deadline_iso" = none ∨
       dictGet [("deadline_iso", Val.vStr "2025-11-21")] "deadline_iso" = some .vNull) →
       statusFields (recalculate_status
           (fun t => if t == "2025-11-21" then some (738846 : Int) else none)
           [("deadline_iso", Val.vStr "2025-11-21")] 738847) =
         (some (.vStr "no_deadline"), some (.vInt 0), some (.vBool false))) ∧
     (dictGet [("deadline_iso", Val.vStr "2025-11-21")] "deadline_iso"
        = some (.vStr "2025-11-21") →
      (fun t => if t == "2025-11-21" then some (738846 : Int) else none) "2025-11-21"
        = none →
       statusFields (recalculate_status
           (fun t => if t == "2025-11-21" then some (738846 : Int) else none)
           [("deadline_iso", Val.vStr "2025-11-21")] 738847) =
         (some (.vStr "no_deadline"), some (.vInt 0), some (.vBool false)))) :=
  ⟨by decide,
   recalculate_status_cases
     (fun t => if t == "2025-11-21" then some (738846 : Int) else none)
     [("deadline_iso", Val.vStr "2025-11-21")] 738847 738846 "2025-11-21" (by decide)⟩

/-- C7 counterexample: a completed commitment that lacks a `status` field
is *not* returned unchanged — `recalculate_status` adds the three status
fields with default values. -/
theorem claim_C7_counterexample :
    recalculate_status (fun _ => none) [("completed", Val.vBool true)] 0
      ≠ [("completed", Val.vBool true)] := by
  decide

theorem dictGet_dictSet_self (d : PyDict) (k : String) (v : Val) :
    dictGet (dictSet d k v) k = some v := assocGet_assocSet_self d k v

theorem dictGet_dictSet_ne (d : PyDict) (k k' : String) (v : Val) (h : k' ≠ k) :
    dictGet (dictSet d k v) k' = dictGet d k' := assocGet_assocSet_ne d k k' v h

/-- C7 (amended): for a completed commitment, `recalculate_status` leaves
every field other than `status`, `days_overdue`, `overdue_flag` unchanged,
and if those three fields are already present it returns the commitment
entirely unchanged; each of the three comes out as its original value when
present and as its default (`"no_deadline"` / `0` / `false`) when it was
missing. -/
theorem recalculate_status_completed_frame (parseIso : String → Option Int)
    (c : PyDict) (today : Int) (hc : truthy (dictGet c "completed") = true) :
    (∀ k : String, k ≠ "status" → k ≠ "days_overdue" → k ≠ "overdue_flag" →
      dictGet (recalculate_status parseIso c today) k = dictGet c k) ∧
    (∀ vs vd vf : Val,
      dictGet c "status" = some vs → dictGet c "days_overdue" = some vd →
      dictGet c "overdue_flag" = some vf →
      recalculate_status parseIso c today = c) ∧
    (dictGet (recalculate_status parseIso c today) "status"
       = some (pyGetD c "status" (.vStr "no_deadline")) ∧
     dictGet (recalculate_status parseIso c today) "days_overdue"
       = some (pyGetD c "days_overdue" (.vInt 0)) ∧
     dictGet (recalculate_status parseIso c today) "overdue_flag"
       = some (pyGetD c "overdue_flag" (.vBool false))) ∧
    ((dictGet c "status" = none →
       dictGet (recalculate_status parseIso c today) "status"
         = some (.vStr "no_deadline")) ∧
     (dictGet c "days_overdue" = none →
       dictGet (recalculate_status parseIso c today) "days_overdue"
         = some (.vInt 0)) ∧
     (dictGet c "overdue_flag" = none →
       dictGet (recalculate_status parseIso c today) "overdue_flag"
         = some (.vBool false))) := by
  have hreq := recalculate_status_completed_eq parseIso c today hc
  have hgs : dictGet (recalculate_status parseIso c today) "status"
      = some (pyGetD c "status" (.vStr "no_deadline")) := by
    simp only [hreq, recalcCompleted]
    rw [dictGet_dictSet_ne _ _ _ _
          (show ("status" : String) ≠ "overdue_flag" from by decide),
        dictGet_dictSet_ne _ _ _ _
          (show ("status" : String) ≠ "days_overdue" from by decide),
        dictGet_dictSet_self]
  have hgd : dictGet (recalculate_status parseIso c today) "days_overdue"
      = some (pyGetD c "days_overdue" (.vInt 0)) := by
    simp only [hreq, recalcCompleted]
    rw [dictGet_dictSet_ne _ _ _ _
          (show ("days_overdue" : String) ≠ "overdue_flag" from by decide),
        dictGet_dictSet_self, pyGetD, pyGetD,
        dictGet_dictSet_ne _ _ _ _
          (show ("days_overdue" : String) ≠ "status" from by decide)]
    rfl
  have hgf : dictGet (recalculate_status parseIso c today) "overdue_flag"
      = some (pyGetD c "overdue_flag" (.vBool false)) := by
    simp only [hreq, recalcCompleted]
    rw [dictGet_dictSet_self, pyGetD, pyGetD,
        dictGet_dictSet_ne _ _ _ _
          (show ("overdue_flag" : String) ≠ "days_overdue" from by decide),
        dictGet_dictSet_ne _ _ _ _
          (show ("overdue_flag" : String) ≠ "status" from by decide)]
    rfl
  refine ⟨?_, ?_, ⟨hgs, hgd, hgf⟩, ?_, ?_, ?_⟩
  · intro k hk1 hk2 hk3
    rw [hreq, recalcCompleted]
    show assocGet _ _ = _
    simp only [dictSet]
    rw [assocGet_assocSet_ne _ _ _ _ hk3, assocGet_assocSet_ne _ _ _ _ hk2,
        assocGet_assocSet_ne _ _ _ _ hk1]
    rfl
  · intro vs vd vf hs hd hf
    rw [hreq, recalcCompleted]
    have e1 : dictSet c "status" (pyGetD c "status" (.vStr "no_deadline")) = c := by
      rw [pyGetD, hs, Option.getD_some]
      exact assocSet_self_of_get c "status" vs hs
    rw [e1]
    have e2 : dictSet c "days_overdue" (pyGetD c "days_overdue" (.vInt 0)) = c := by
      rw [pyGetD, hd, Option.getD_some]
      exact assocSet_self_of_get c "days_overdue" vd hd
    rw [e2]
    rw [pyGetD, hf, Option.getD_some]
    exact assocSet_self_of_get c "overdue_flag" vf hf
  · intro h
    rw [hgs, pyGetD, h]
    rfl
  · intro h
    rw [hgd, pyGetD, h]
    rfl
  · intro h
    rw [hgf, pyGetD, h]
    rfl

/-- Witness for the amended C7: a completed commitment with all three
status fields present is returned unchanged (other fields framed), and a
completed commitment missing all three gets them added with defaults
`"no_deadline"` / `0` / `false`. -/
theorem recalculate_status_completed_frame_witness :
    truthy (dictGet [("completed", Val.vBool true), ("status", Val.vStr "overdue"),
        ("days_overdue", Val.vInt 3), ("overdue_flag", Val.vBool true)] "completed")
      = true ∧
    ((∀ k : String, k ≠ "status" → k ≠ "days_overdue" → k ≠ "overdue_flag" →
      dictGet (recalculate_status (fun _ => none)
          [("completed", Val.vBool true), ("status", Val.vStr "overdue"),
           ("days_overdue", Val.vInt 3), ("overdue_flag", Val.vBool true)] 0) k =
        dictGet [("completed", Val.vBool true), ("status", Val.vStr "overdue"),
           ("days_overdue", Val.vInt 3), ("overdue_flag", Val.vBool true)] k) ∧
     (∀ vs vd vf : Val,
      dictGet [("completed", Val.vBool true), ("status", Val.vStr "overdue"),
           ("days_overdue", Val.vInt 3), ("overdue_flag", Val.vBool true)] "status"
        = some vs →
      dictGet [("completed", Val.vBool true), ("status", Val.vStr "overdue"),
           ("days_overdue", Val.vInt 3), ("overdue_flag", Val.vBool true)] "days_overdue"
        = some vd →
      dictGet [("completed", Val.vBool true), ("status", Val.vStr "overdue"),
           ("days_overdue", Val.vInt 3), ("overdue_flag", Val.vBool true)] "overdue_flag"
        = some vf →
      recalculate_status (fun _ => none)
          [("completed", Val.vBool true), ("status", Val.vStr "overdue"),
           ("days_overdue", Val.vInt 3), ("overdue_flag", Val.vBool true)] 0 =
        [("completed", Val.vBool true), ("status", Val.vStr "overdue"),
           ("days_overdue", Val.vInt 3), ("overdue_flag", Val.vBool true)])) ∧
    truthy (dictGet [("completed", Val.vBool true)] "completed") = true ∧
    dictGet (recalculate_status (fun _ => none) [("completed", Val.vBool true)] 0)
      "status" = some (.vStr "no_deadline") ∧
    dictGet (recalculate_status (fun _ => none) [("completed", Val.vBool true)] 0)
      "days_overdue" = some (.vInt 0) ∧
    dictGet (recalculate_status (fun _ => none) [("completed", Val.vBool true)] 0)
      "overdue_flag" = some (.vBool false) :=
  ⟨by decide,
   ⟨(recalculate_status_completed_frame (fun _ => none)
       [("completed", Val.vBool true), ("status", Val.vStr "overdue"),
        ("days_overdue", Val.vInt 3), ("overdue_flag", Val.vBool true)] 0
       (by decide)).1,
    (recalculate_status_completed_frame (fun _ => none)
       [("completed", Val.vBool true), ("status", Val.vStr "overdue"),
        ("days_overdue", Val.vInt 3), ("overdue_flag", Val.vBool true)] 0
       (by decide)).2.1⟩,
   by decide,
   (recalculate_status_completed_frame (fun _ => none)
      [("completed", Val.vBool true)] 0 (by decide)).2.2.2.1 rfl,
   (recalculate_status_completed_frame (fun _ => none)
      [("completed", Val.vBool true)] 0 (by decide)).2.2.2.2.1 rfl,
   (recalculate_status_completed_frame (fun _ => none)
      [("completed", Val.vBool true)] 0 (by decide)).2.2.2.2.2 rfl⟩

/-! ## String helpers

Python's substring test `needle in haystack` and the hand-rolled pattern
searches of `deadline_parser.py`, modelled over explicit character lists. -/

/-- `needle` is a prefix of `haystack`. -/
def isPrefixChars : List Char → List Char → Bool
  | [], _ => true
  | _ :: _, [] => false
  | a :: as, b :: bs => a == b && isPrefixChars as bs

/-- `needle` occurs contiguously inside `haystack` (Python `in`). -/
def isInfixChars (needle : List Char) : List Char → Bool
  | [] => isPrefixChars needle []
  | c :: rest => isPrefixChars needle (c :: rest) || isInfixChars needle rest

/-- `needle in haystack` for a string needle over a char-list haystack. -/
def strIn (needle : String) (hay : List Char) : Bool := isInfixChars needle.data hay

/-! ## Extraction post-processing (`extract_initial_commitments.py`,
`_post_process_commitments`, the `estimated_hours` defaulting block)

The source only replaces `estimated_hours` when `c.get("estimated_hours")
is None` (missing key or stored null); the default is chosen by Python
substring tests on the lower-cased `commitment_type`. -/

/-- `c.get("commitment_type", "").lower()`.  A missing key defaults to the
empty string; the field is a string whenever present (a non-string value
would raise `AttributeError` on `.lower()` and does not occur). -/
def lowerStr : Option Val → String
  | some (.vStr s) => s.toLower
  | _ => ""

/-- The default-hours chain keyed by substring tests on `commitment_type`. -/
def defaultEstimatedHours (ct : String) : ℚ :=
  if strIn "meeting" ct.data || strIn "call" ct.data then 1
  else if strIn "email" ct.data || strIn "message" ct.data
      || strIn "communication" ct.data then 1/2
  else if strIn "deliverable" ct.data || strIn "report" ct.data
      || strIn "document" ct.data then 3
  else if strIn "presentation" ct.data then 5
  else if strIn "feature" ct.data || strIn "development" ct.data then 8
  else 2

/-- The `estimated_hours` block of `_post_process_commitments`: replace the
field by the type default exactly when `c.get("estimated_hours") is None`. -/
def ensure_estimated_hours (c : PyDict) : PyDict :=
  match dictGet c "estimated_hours" with
  | none | some .vNull =>
    dictSet c "estimated_hours"
      (.vRat (defaultEstimatedHours (lowerStr (dictGet c "commitment_type"))))
  | some _ => c

/-- C4 counterexample: a commitment of type `meeting` whose
`estimated_hours` is present but `0` (so "≤ 0") is left untouched by
post-processing — the claimed replacement by the type default `1` does not
happen, and the post-processed value is not `> 0`. -/
theorem claim_C4_counterexample :
    dictGet (ensure_estimated_hours
        [("estimated_hours", Val.vInt 0), ("commitment_type", Val.vStr "meeting")])
      "estimated_hours" = some (Val.vInt 0) := by
  decide

/-- C4 (amended): post-processing replaces `estimated_hours` exactly when
it is absent or null, choosing the `commitment_type` default by substring
match (meeting/call→1, email/message/communication→0.5,
deliverable/report/document→3, presentation→5, feature/development→8,
otherwise 2), and every default is positive; a present non-null value —
including a non-positive one — is preserved, so `estimated_hours > 0` is
not guaranteed for all post-processed commitments. -/
theorem ensure_estimated_hours_amended (c : PyDict) :
    ((dictGet c "estimated_hours" = none ∨ dictGet c "estimated_hours" = some .vNull) →
      ensure_estimated_hours c = dictSet c "estimated_hours"
        (.vRat (defaultEstimatedHours (lowerStr (dictGet c "commitment_type"))))) ∧
    (∀ ct : String, 0 < defaultEstimatedHours ct) ∧
    (∀ v : Val, dictGet c "estimated_hours" = some v → v ≠ .vNull →
      ensure_estimated_hours c = c) ∧
    (defaultEstimatedHours "meeting" = 1 ∧ defaultEstimatedHours "call" = 1 ∧
     defaultEstimatedHours "email" = 1/2 ∧ defaultEstimatedHours "message" = 1/2 ∧
     defaultEstimatedHours "report" = 3 ∧ defaultEstimatedHours "document" = 3 ∧
     defaultEstimatedHours "presentation" = 5 ∧ defaultEstimatedHours "feature" = 8 ∧
     defaultEstimatedHours "general" = 2) := by
  refine ⟨?_, ?_, ?_, ?_⟩
  · intro h
    rcases h with h | h <;> rw [ensure_estimated_hours, h]
  · intro ct
    rw [defaultEstimatedHours]
    split_ifs <;> norm_num
  · intro v hv hne
    rw [ensure_estimated_hours, hv]
    cases v with
    | vNull => exact absurd rfl hne
    | vBool b => rfl
    | vInt n => rfl
    | vStr s => rfl
    | vRat q => rfl
    | vDate d => rfl
  · refine ⟨?_, ?_, ?_, ?_, ?_, ?_, ?_, ?_, ?_⟩
    · rw [defaultEstimatedHours,
          show (strIn "meeting" "meeting".data || strIn "call" "meeting".data) = true
            from by decide]
      norm_num
    · rw [defaultEstimatedHours,
          show (strIn "meeting" "call".data || strIn "call" "call".data) = true
            from by decide]
      norm_num
    · rw [defaultEstimatedHours,
          show (strIn "meeting" "email".data || strIn "call" "email".data) = false
            from by decide,
          show (strIn "email" "email".data || strIn "message" "email".data
            || strIn "communication" "email".data) = true from by decide]
      norm_num
    · rw [defaultEstimatedHours,
          show (strIn "meeting" "message".data || strIn "call" "message".data) = false
            from by decide,
          show (strIn "email" "message".data || strIn "message" "message".data
            || strIn "communication" "message".data) = true from by decide]
      norm_num
    · rw [defaultEstimatedHours,
          show (strIn "meeting" "report".data || strIn "call" "report".data) = false
            from by decide,
          show (strIn "email" "report".data || strIn "message" "report".data
            || strIn "communication" "report".data) = false from by decide,
          show (strIn "deliverable" "report".data || strIn "report" "report".data
            || strIn "document" "report".data) = true from by decide]
      norm_num
    · rw [defaultEstimatedHours,
          show (strIn "meeting" "document".data || strIn "call" "document".data) = false
            from by decide,
          show (strIn "email" "document".data || strIn "message" "document".data
            || strIn "communication" "document".data) = false from by decide,
          show (strIn "deliverable" "document".data || strIn "report" "document".data
            || strIn "document" "document".data) = true from by decide]
      norm_num
    · rw [defaultEstimatedHours,
          show (strIn "meeting" "presentation".data
            || strIn "call" "presentation".data) = false from by decide,
          show (strIn "email" "presentation".data || strIn "message" "presentation".data
            || strIn "communication" "presentation".data) = false from by decide,
          show (strIn "deliverable" "presentation".data
            || strIn "report" "presentation".data
            || strIn "document" "presentation".data) = false from by decide,
          show strIn "presentation" "presentation".data = true from by decide]
      norm_num
    · rw [defaultEstimatedHours,
          show (strIn "meeting" "feature".data || strIn "call" "feature".data) = false
            from by decide,
          show (strIn "email" "feature".data || strIn "message" "feature".data
            || strIn "communication" "feature".data) = false from by decide,
          show (strIn "deliverable" "feature".data || strIn "report" "feature".data
            || strIn "document" "feature".data) = false from by decide,
          show strIn "presentation" "feature".data = false from by decide,
          show (strIn "feature" "feature".data
            || strIn "development" "feature".data) = true from by decide]
      norm_num
    · rw [defaultEstimatedHours,
          show (strIn "meeting" "general".data || strIn "call" "general".data) = false
            from by decide,
          show (strIn "email" "general".data || strIn "message" "general".data
            || strIn "communication" "general".data) = false from by decide,
          show (strIn "deliverable" "general".data || strIn "report" "general".data
            || strIn "document" "general".data) = false from by decide,
          show strIn "presentation" "general".data = false from by decide,
          show (strIn "feature" "general".data
            || strIn "development" "general".data) = false from by decide]
      norm_num

/-- Witness for the amended C4 on a `meeting` commitment with no
`estimated_hours` field. -/
theorem ensure_estimated_hours_amended_witness :
    dictGet [("commitment_type", Val.vStr "meeting")] "estimated_hours" = none ∧
    ensure_estimated_hours [("commitment_type", Val.vStr "meeting")] =
      dictSet [("commitment_type", Val.vStr "meeting")] "estimated_hours"
        (.vRat (defaultEstimatedHours
          (lowerStr (dictGet [("commitment_type", Val.vStr "meeting")]
            "commitment_type")))) ∧
    (0 : ℚ) < defaultEstimatedHours "meeting" ∧
    ensure_estimated_hours
        [("estimated_hours", Val.vRat 2), ("commitment_type", Val.vStr "meeting")] =
      [("estimated_hours", Val.vRat 2), ("commitment_type", Val.vStr "meeting")] :=
  ⟨rfl,
   (ensure_estimated_hours_amended [("commitment_type", Val.vStr "meeting")]).1
     (Or.inl rfl),
   (ensure_estimated_hours_amended [("commitment_type", Val.vStr "meeting")]).2.1
     "meeting",
   (ensure_estimated_hours_amended
       [("estimated_hours", Val.vRat 2), ("commitment_type", Val.vStr "meeting")]).2.2.1
     (Val.vRat 2) rfl (by decide)⟩

/-! ## Deadline normalizer (`services/gmail/deadline_parser.py`)

Dates are proleptic-Gregorian ordinals (`Int`); `pyWeekday` is
`date.weekday()` (Monday = 0; ordinal 1 is a Monday).  The branch chain of
`parse_deadline_raw` is modelled over the normalized (stripped,
lower-cased) character list; the `re.search` patterns are modelled by
explicit leftmost scanners with the same backtracking behaviour.  The
explicit-date tail of the function (the `dateutil` parse, the ordinal
month-name pattern and the bare day-of-month pattern, which need calendar
month arithmetic) is abstracted as the `fallback` argument; every phrase
this development reasons about resolves before that tail. -/

/-- `(text or "").strip().lower()`, as a character list. -/
def pyNormalize (s : String) : List Char :=
  (((s.data.dropWhile Char.isWhitespace).reverse.dropWhile Char.isWhitespace).reverse).map
    Char.toLower

/-- `date.weekday()` of an ordinal (Monday = 0). -/
def pyWeekday (d : Int) : Int := (d - 1) % 7

/-- `_weekday_after(reference, target_wd, which)`: the date of the next
(or this week's) target weekday.  `days_ahead = (target_wd − ref_wd + 7) % 7`,
bumped to `7` when `which == 'next'` and the remainder is `0`. -/
def weekday_after (ref : Int) (targetWd : Int) (which : String) : Int :=
  let daysAhead := (targetWd - pyWeekday ref + 7) % 7
  let daysAhead2 :=
    if which == "next" then (if daysAhead != 0 then daysAhead else 7) else daysAhead
  ref + daysAhead2

/-- Consume a literal at the head of the input. -/
def dropLit : List Char → List Char → Option (List Char)
  | [], cs => some cs
  | _ :: _, [] => none
  | a :: as, b :: bs => if a == b then dropLit as bs else none

/-- Consume one-or-more chars satisfying `p` (greedy, like `\s+` / `\d+`). -/
def dropMany1 (p : Char → Bool) : List Char → Option (List Char)
  | [] => none
  | c :: rest => if p c then some (rest.dropWhile p) else none

/-- Leftmost `re.search` over all start positions, boolean form. -/
def searchBool (p : List Char → Bool) : List Char → Bool
  | [] => p []
  | c :: rest => p (c :: rest) || searchBool p rest

/-- Leftmost `re.search` over all start positions, capturing form. -/
def searchOpt {α : Type} (p : List Char → Option α) : List Char → Option α
  | [] => p []
  | c :: rest =>
    match p (c :: rest) with
    | some r => some r
    | none => searchOpt p rest

/-- The unit alternation of `within\s+\d+\s*(hour|hr|minute|min)`. -/
def hourUnitAt (cs : List Char) : Bool :=
  ["hour", "hr", "minute", "min"].any (fun u => isPrefixChars u.data cs)

/-- Match `LIT\s+\d+\s*(hour|hr|minute|min)` at the current position
(`LIT` is `within` or `in`). -/
def hoursPatAt (lit : String) (cs : List Char) : Bool :=
  match dropLit lit.data cs with
  | none => false
  | some r1 =>
    match dropMany1 Char.isWhitespace r1 with
    | none => false
    | some r2 =>
      match dropMany1 Char.isDigit r2 with
      | none => false
      | some r3 => hourUnitAt (r3.dropWhile Char.isWhitespace)

/-- Match `before\s+(the|our|my)\s+(meeting|call|demo|presentation|review)`
at the current position. -/
def beforeEventAt (cs : List Char) : Bool :=
  match dropLit "before".data cs with
  | none => false
  | some r1 =>
    match dropMany1 Char.isWhitespace r1 with
    | none => false
    | some r2 =>
      ["the", "our", "my"].any (fun w =>
        match dropLit w.data r2 with
        | none => false
        | some r3 =>
          match dropMany1 Char.isWhitespace r3 with
          | none => false
          | some r4 =>
            ["meeting", "call", "demo", "presentation", "review"].any
              (fun e => isPrefixChars e.data r4))

/-- `WEEKDAY_MAP`, in the regex's alternation order. -/
def weekdayNames : List (String × Int) :=
  [("monday", 0), ("tuesday", 1), ("wednesday", 2), ("thursday", 3),
   ("friday", 4), ("saturday", 5), ("sunday", 6)]

/-- Match a weekday name at the current position, giving its index. -/
def weekdayAt (cs : List Char) : Option Int :=
  (weekdayNames.find? (fun p => isPrefixChars p.1.data cs)).map (fun p => p.2)

/-- Match `(?:(next|this)\s+)?(WEEKDAY)` at the current position; the
qualifier group defaults to `'this'` (`which = m.group(1) or 'this'`). -/
def qualWeekdayAt (cs : List Char) : Option (String × Int) :=
  match (["next", "this"].findSome? (fun q =>
    match dropLit q.data cs with
    | none => none
    | some r1 =>
      match dropMany1 Char.isWhitespace r1 with
      | none => none
      | some r2 => (weekdayAt r2).map (fun wd => (q, wd)))) with
  | some res => some res
  | none => (weekdayAt cs).map (fun wd => ("this", wd))

/-- Match `(?:(?:by|due|on|before)\s+)?(?:(next|this)\s+)?(WEEKDAY)` at the
current position, with regex backtracking across the optional groups. -/
def weekdayPatAt (cs : List Char) : Option (String × Int) :=
  match (["by", "due", "on", "before"].findSome? (fun w =>
    match dropLit w.data cs with
    | none => none
    | some r1 =>
      match dropMany1 Char.isWhitespace r1 with
      | none => none
      | some r2 => qualWeekdayAt r2)) with
  | some res => some res
  | none => qualWeekdayAt cs

/-- `int()` of a digit run. -/
def natOfDigits (ds : List Char) : Nat :=
  ds.foldl (fun n c => 10 * n + (c.toNat - '0'.toNat)) 0

/-- Match `(?:in|within)\s+(\d+)\s*days?` at the current position,
capturing the number of days. -/
def daysPatAt (cs : List Char) : Option Nat :=
  ["in", "within"].findSome? (fun w =>
    match dropLit w.data cs with
    | none => none
    | some r1 =>
      match dropMany1 Char.isWhitespace r1 with
      | none => none
      | some r2 =>
        let digits := r2.takeWhile Char.isDigit
        if digits.isEmpty then none
        else
          let r3 := (r2.dropWhile Char.isDigit).dropWhile Char.isWhitespace
          if isPrefixChars "day".data r3 then some (natOfDigits digits) else none)

/-- The null-like phrases mapped to `None`. -/
def nullLikes : List String :=
  ["null", "none", "n/a", "na", "no deadline", "no date", "tbd", "to be determined"]

/-- `parse_deadline_raw(deadline_raw, email_date_iso)`.  `emailDate` is the
ordinal of the reference date already extracted from `email_date_iso`;
`fallback` abstracts the explicit-date tail (see the section comment). -/
def parse_deadline_raw (fallback : String → Int → Option Int)
    (deadlineRaw : String) (emailDate : Int) : Option Int :=
  if deadlineRaw.data.isEmpty then none
  else
    let txt := pyNormalize deadlineRaw
    if nullLikes.any (fun p => p.data == txt) then none
    else if strIn "tonight" txt || strIn "this evening" txt then some emailDate
    else if strIn "today" txt && !(strIn "yesterday" txt) then some emailDate
    else if strIn "end of day" txt || strIn "eod" txt || strIn "by eod" txt then
      some emailDate
    else if strIn "close of business" txt || strIn "cob" txt then some emailDate
    else if ["asap", "as soon as possible", "immediately", "right away", "right now",
             "urgent", "urgently", "at your earliest"].any (fun p => strIn p txt) then
      some emailDate
    else if searchBool (hoursPatAt "within") txt then some emailDate
    else if searchBool (hoursPatAt "in") txt then some emailDate
    else if searchBool beforeEventAt txt then some emailDate
    else if strIn "tomorrow" txt then some (emailDate + 1)
    else if strIn "first thing" txt && strIn "morning" txt then some (emailDate + 1)
    else
      match searchOpt weekdayPatAt txt with
      | some (which, wd) => some (weekday_after emailDate wd which)
      | none =>
        if strIn "next week" txt then some (emailDate + 7)
        else if strIn "this week" txt then some (emailDate + (6 - pyWeekday emailDate))
        else if strIn "end of week" txt || strIn "end of the week" txt then
          let daysToFri := 4 - pyWeekday emailDate
          some (emailDate + (if daysToFri < 0 then daysToFri + 7 else daysToFri))
        else
          match searchOpt daysPatAt txt with
          | some n => some (emailDate + (n : Int))
          | none => fallback deadlineRaw emailDate

theorem weekday_after_this_eq (ref wd : Int) :
    weekday_after ref wd "this" = ref + (wd - pyWeekday ref + 7) % 7 := rfl

theorem weekday_after_next_eq (ref wd : Int) :
    weekday_after ref wd "next" =
      ref + (if (wd - pyWeekday ref + 7) % 7 = 0 then 7
             else (wd - pyWeekday ref + 7) % 7) := by
  simp only [weekday_after, show ("next" == "next") = true from rfl, if_true]
  by_cases h : (wd - pyWeekday ref + 7) % 7 = 0
  · simp [h]
  · have hb : ((wd - pyWeekday ref + 7) % 7 != 0) = true := by
      simpa [bne_iff_ne] using h
    simp [h, hb]

/-- C5: for every reference date `t`, the normalizer maps `"tonight"` to
`t`, `"tomorrow"` to `t + 1`, `"by Friday"` to the earliest Friday `≥ t`,
and `"next Friday"` to the earliest Friday strictly after `t`; and the
weekday arithmetic computes `days_ahead = (target_wd − ref_wd) mod 7`,
replaced by `7` when the qualifier is `next` and the remainder is `0`. -/
theorem parse_deadline_raw_relative_phrases (fb : String → Int → Option Int) (t : Int) :
    parse_deadline_raw fb "tonight" t = some t ∧
    parse_deadline_raw fb "tomorrow" t = some (t + 1) ∧
    (∃ r : Int, parse_deadline_raw fb "by Friday" t = some r ∧
      pyWeekday r = 4 ∧ t ≤ r ∧ ∀ f : Int, pyWeekday f = 4 → t ≤ f → r ≤ f) ∧
    (∃ r : Int, parse_deadline_raw fb "next Friday" t = some r ∧
      pyWeekday r = 4 ∧ t < r ∧ ∀ f : Int, pyWeekday f = 4 → t < f → r ≤ f) ∧
    (∀ ref wd : Int, weekday_after ref wd "this" = ref + (wd - pyWeekday ref) % 7) ∧
    (∀ ref wd : Int,
      ((wd - pyWeekday ref) % 7 ≠ 0 →
        weekday_after ref wd "next" = ref + (wd - pyWeekday ref) % 7) ∧
      ((wd - pyWeekday ref) % 7 = 0 → weekday_after ref wd "next" = ref + 7)) := by
  refine ⟨rfl, rfl, ?_, ?_, ?_, ?_⟩
  · refine ⟨t + (4 - pyWeekday t + 7) % 7, rfl, ?_, ?_, ?_⟩
    · simp only [pyWeekday]; omega
    · simp only [pyWeekday]; omega
    · intro f hf hge
      simp only [pyWeekday] at *
      omega
  · have e : parse_deadline_raw fb "next Friday" t =
        some (t + (if (4 - pyWeekday t + 7) % 7 = 0 then 7
                   else (4 - pyWeekday t + 7) % 7)) := by
      rw [show parse_deadline_raw fb "next Friday" t
            = some (weekday_after t 4 "next") from rfl,
          weekday_after_next_eq]
    refine ⟨_, e, ?_, ?_, ?_⟩
    · simp only [pyWeekday]
      split_ifs with h <;> omega
    · simp only [pyWeekday]
      split_ifs with h <;> omega
    · intro f hf hlt
      simp only [pyWeekday] at *
      split_ifs with h <;> omega
  · intro ref wd
    rw [weekday_after_this_eq]
    omega
  · intro ref wd
    constructor
    · intro h
      rw [weekday_after_next_eq]
      split_ifs with hc <;> omega
    · intro h
      rw [weekday_after_next_eq]
      split_ifs with hc <;> omega

/-- Witness for C5 at `t = 738500` (a concrete reference date) and the
trivial fallback. -/
theorem parse_deadline_raw_relative_phrases_witness :
    parse_deadline_raw (fun _ _ => none) "tonight" 738500 = some 738500 ∧
    parse_deadline_raw (fun _ _ => none) "tomorrow" 738500 = some (738500 + 1) ∧
    (∃ r : Int, parse_deadline_raw (fun _ _ => none) "by Friday" 738500 = some r ∧
      pyWeekday r = 4 ∧ (738500 : Int) ≤ r ∧
      ∀ f : Int, pyWeekday f = 4 → (738500 : Int) ≤ f → r ≤ f) ∧
    (∃ r : Int, parse_deadline_raw (fun _ _ => none) "next Friday" 738500 = some r ∧
      pyWeekday r = 4 ∧ (738500 : Int) < r ∧
      ∀ f : Int, pyWeekday f = 4 → (738500 : Int) < f → r ≤ f) ∧
    (∀ ref wd : Int, weekday_after ref wd "this" = ref + (wd - pyWeekday ref) % 7) ∧
    (∀ ref wd : Int,
      ((wd - pyWeekday ref) % 7 ≠ 0 →
        weekday_after ref wd "next" = ref + (wd - pyWeekday ref) % 7) ∧
      ((wd - pyWeekday ref) % 7 = 0 → weekday_after ref wd "next" = ref + 7)) :=
  parse_deadline_raw_relative_phrases (fun _ _ => none) 738500

/-! ## Live pipeline (`tools/gmail/process_new_email.py`)

`process_new_email` (modelled from the point where the Gmail message has
been fetched and `email_json` built): dedupe on `(user, message_id)`
against the user's commitment collection, then extract and persist one
document per extracted commitment.  The Composio fetch, the extractor
call and `parse_deadline_raw` at the email's date are abstracted as
arguments (`ai = none` models an extractor exception, which is caught and
ends the handler); `gen` supplies the fresh UUID-based commitment ids
drawn in `save_commitment_to_firestore`. -/

/-- The fixed shape of the dict returned by `build_email_json`. -/
structure EmailJson where
  sender : String
  senderName : String
  subject : String
  body : String
  date : String
  messageId : String
  folder : String
  recipientEmail : String
  recipientName : String

/-- The extractor output consumed by the persistence loop
(`ai_result.get(...)` with its defaults already applied). -/
structure ExtractionResult where
  hasCommitment : Bool
  commitments : List PyDict
  classification : PyDict
  direction : String
  summary : String

/-- `check_commitment_exists(user_id, message_id)`: Firestore query
`where("message_id", "==", message_id).limit(1)` is non-empty. -/
def check_commitment_exists (store : List PyDict) (messageId : String) : Bool :=
  store.any (fun d =>
    match dictGet d "message_id" with
    | some (.vStr s) => s == messageId
    | _ => false)

/-- The `commitment_doc` literal built for each extracted commitment `c`.
`parseFn` is `parse_deadline_raw(· , email_json["date"])`. -/
def commitment_doc (parseFn : String → Option String) (email : EmailJson)
    (userId : String) (direction summary : String) (classification : PyDict)
    (c : PyDict) (nowIso : String) : PyDict :=
  let deadlineRaw := dictGet c "deadline_raw"
  let deadlineIso : Option String :=
    if truthy deadlineRaw then
      match deadlineRaw with
      | some (.vStr s) => parseFn s
      | _ => none
    else none
  [("has_commitment", .vBool true),
   ("direction", .vStr (if direction == "" then "incoming" else direction)),
   ("assigned_to_me", pyGetD c "assigned_to_me" (.vBool false)),
   ("summary", .vStr summary),
   ("commitment_id", .vNull),
   ("user_id", .vStr userId),
   ("what", pyGetD c "what" .vNull),
   ("to_whom", pyGetD c "to_whom" .vNull),
   ("given_by", pyGetD c "given_by" .vNull),
   ("deadline_raw", deadlineRaw.getD .vNull),
   ("deadline_iso", match deadlineIso with | some s => .vStr s | none => .vNull),
   ("status", pyGetD c "status" (.vStr "active")),
   ("completed", pyGetD c "completed" (.vBool false)),
   ("completed_at", .vNull),
   ("days_overdue", pyGetD c "days_overdue" (.vInt 0)),
   ("overdue_flag", pyGetD c "overdue_flag" (.vBool false)),
   ("priority", pyGetD c "priority" (.vStr "medium")),
   ("commitment_type", pyGetD c "commitment_type" (.vStr "general")),
   ("confidence", pyGetD c "confidence" (.vRat 1)),
   ("estimated_hours", pyGetD c "estimated_hours" (.vInt 0)),
   ("message_id", .vStr email.messageId),
   ("email_subject", .vStr email.subject),
   ("email_sender", .vStr email.sender),
   ("email_sender_name", .vStr email.senderName),
   ("email_date", .vStr email.date),
   ("source_email_folder", .vStr email.folder),
   ("sender_role",
     match dictGet classification "sender_role" with
     | some v => v
     | none => pyGetD classification "role" (.vStr "unknown")),
   ("classification_confidence", pyGetD classification "confidence" .vNull),
   ("classification_domain_match", pyGetD classification "domain_match" .vNull),
   ("classification_domain", pyGetD classification "domain" .vNull),
   ("classification_signature_match", pyGetD classification "signature_match" .vNull),
   ("classification_subject_hint", pyGetD classification "subject_hint" .vNull),
   ("classification_body_hint", pyGetD classification "body_hint" .vNull),
   ("classification_fallback_used", pyGetD classification "fallback_used" .vNull),
   ("created_at", .vStr nowIso),
   ("updated_at", .vStr nowIso),
   ("extracted_at", .vStr nowIso)]

/-- `save_commitment_to_firestore`: stamp a fresh `commitment_id` and both
timestamps, then store the document (returned here; the caller appends). -/
def save_commitment_to_firestore (commitmentId nowIso : String) (doc : PyDict) : PyDict :=
  dictSet (dictSet (dictSet doc "commitment_id" (.vStr commitmentId))
    "created_at" (.vStr nowIso)) "updated_at" (.vStr nowIso)

/-- `process_new_email` from the dedupe check onward: the returned list is
the user's commitment collection after the invocation. -/
def process_new_email (parseFn : String → Option String) (gen : Nat → String)
    (email : EmailJson) (userId nowIso : String)
    (ai : Option ExtractionResult) (store : List PyDict) : List PyDict :=
  if check_commitment_exists store email.messageId then store
  else
    match ai with
    | none => store
    | some res =>
      if !res.hasCommitment then store
      else
        store ++ (res.commitments.enum.map (fun p =>
          save_commitment_to_firestore (gen p.1) nowIso
            (commitment_doc parseFn email userId res.direction res.summary
              res.classification p.2 nowIso)))

theorem commitment_doc_message_id (parseFn : String → Option String)
    (email : EmailJson) (userId direction summary : String)
    (classification : PyDict) (c : PyDict) (nowIso : String) :
    dictGet (commitment_doc parseFn email userId direction summary classification
        c nowIso) "message_id" = some (.vStr email.messageId) := rfl

theorem save_message_id (commitmentId nowIso : String) (doc : PyDict) (v : Val)
    (h : dictGet doc "message_id" = some v) :
    dictGet (save_commitment_to_firestore commitmentId nowIso doc) "message_id"
      = some v := by
  have h1 : ("message_id" : String) ≠ "updated_at" := by decide
  have h2 : ("message_id" : String) ≠ "created_at" := by decide
  have h3 : ("message_id" : String) ≠ "commitment_id" := by decide
  show assocGet _ _ = _
  simp only [save_commitment_to_firestore, dictSet]
  rw [assocGet_assocSet_ne _ _ _ _ h1, assocGet_assocSet_ne _ _ _ _ h2,
      assocGet_assocSet_ne _ _ _ _ h3]
  exact h

theorem check_commitment_exists_of_mem (store : List PyDict) (mid : String)
    (d : PyDict) (hd : d ∈ store)
    (h : dictGet d "message_id" = some (.vStr mid)) :
    check_commitment_exists store mid = true := by
  rw [check_commitment_exists, List.any_eq_true]
  refine ⟨d, hd, ?_⟩
  rw [h]
  simp

/-- C6 counterexample: on a fresh store, one live invocation whose
extraction yields two commitments persists two documents both carrying
`message_id = "m1"` — the pair `(user, message_id)` maps to two
commitments, not at most one. -/
theorem claim_C6_counterexample :
    ¬ (((process_new_email (fun _ => none) (fun _ => "cid")
          ⟨"a@x.com", "A", "Subj", "body", "2025-01-01", "m1", "INBOX", "", ""⟩
          "u1" "2025-01-01T00:00:00Z"
          (some ⟨true, [[("what", Val.vStr "c1")], [("what", Val.vStr "c2")]],
            [], "incoming", "sum"⟩) []).filter
        (fun d =>
          match dictGet d "message_id" with
          | some (.vStr s) => s == "m1"
          | _ => false)).length ≤ 1) := by
  decide

/-- C6 (amended): if some stored commitment of the user already has the
message id, the handler returns before extraction and persists nothing;
otherwise a persisting invocation appends one document per extracted
commitment, each carrying that `message_id`, after which any later
invocation for the same message id (under sequential live processing)
leaves the store unchanged — so each `(user, message_id)` pair is
persisted by at most one live-pipeline invocation, though that invocation
may persist several commitments extracted from the one email. -/
theorem process_new_email_dedupe (parseFn : String → Option String)
    (gen : Nat → String) (email : EmailJson) (userId nowIso : String)
    (ai : Option ExtractionResult) (store : List PyDict) :
    (check_commitment_exists store email.messageId = true →
      process_new_email parseFn gen email userId nowIso ai store = store) ∧
    (∀ res : ExtractionResult, ai = some res → res.hasCommitment = true →
      res.commitments ≠ [] →
      check_commitment_exists store email.messageId = false →
      (∀ d ∈ process_new_email parseFn gen email userId nowIso ai store,
        d ∉ store → dictGet d "message_id" = some (.vStr email.messageId)) ∧
      (∀ (parseFn' : String → Option String) (gen' : Nat → String)
         (userId' nowIso' : String) (ai' : Option ExtractionResult),
        process_new_email parseFn' gen' email userId' nowIso' ai'
            (process_new_email parseFn gen email userId nowIso ai store)
          = process_new_email parseFn gen email userId nowIso ai store)) := by
  constructor
  · intro h
    simp [process_new_email, h]
  · intro res hai hhas hne hchk
    subst hai
    have hstore : process_new_email parseFn gen email userId nowIso (some res) store
        = store ++ (res.commitments.enum.map (fun p =>
            save_commitment_to_firestore (gen p.1) nowIso
              (commitment_doc parseFn email userId res.direction res.summary
                res.classification p.2 nowIso))) := by
      simp [process_new_email, hchk, hhas]
    constructor
    · intro d hd hdnot
      rw [hstore] at hd
      rcases List.mem_append.mp hd with h1 | h2
      · exact absurd h1 hdnot
      · obtain ⟨p, _, rfl⟩ := List.mem_map.mp h2
        exact save_message_id _ _ _ _ (commitment_doc_message_id _ _ _ _ _ _ _ _)
    · intro parseFn' gen' userId' nowIso' ai'
      obtain ⟨c, cs, hcc⟩ := List.exists_cons_of_ne_nil hne
      have hmem : save_commitment_to_firestore (gen 0) nowIso
          (commitment_doc parseFn email userId res.direction res.summary
            res.classification c nowIso)
          ∈ process_new_email parseFn gen email userId nowIso (some res) store := by
        rw [hstore, hcc]
        refine List.mem_append_right _ ?_
        rw [List.enum_cons]
        exact List.mem_cons_self _ _
      have hchk2 : check_commitment_exists
          (process_new_email parseFn gen email userId nowIso (some res) store)
          email.messageId = true :=
        check_commitment_exists_of_mem _ _ _ hmem
          (save_message_id _ _ _ _ (commitment_doc_message_id _ _ _ _ _ _ _ _))
      set st1 := process_new_email parseFn gen email userId nowIso (some res) store
        with hst1
      simp [process_new_email, hchk2]

/-- Witness for the amended C6: part (a) at a store already holding the
message id, part (b) at a fresh store with a two-commitment extraction. -/
theorem process_new_email_dedupe_witness :
    (process_new_email (fun _ => none) (fun _ => "cid")
        ⟨"a@x.com", "A", "Subj", "body", "2025-01-01", "m1", "INBOX", "", ""⟩
        "u1" "now" none [[("message_id", Val.vStr "m1")]]
      = [[("message_id", Val.vStr "m1")]]) ∧
    ((∀ d ∈ process_new_email (fun _ => none) (fun _ => "cid")
          ⟨"a@x.com", "A", "Subj", "body", "2025-01-01", "m1", "INBOX", "", ""⟩
          "u1" "now"
          (some ⟨true, [[("what", Val.vStr "c1")], [("what", Val.vStr "c2")]],
            [], "incoming", "sum"⟩) [],
        d ∉ ([] : List PyDict) →
        dictGet d "message_id" = some (.vStr "m1")) ∧
     (∀ (parseFn' : String → Option String) (gen' : Nat → String)
        (userId' nowIso' : String) (ai' : Option ExtractionResult),
       process_new_email parseFn' gen' ⟨"a@x.com", "A", "Subj", "body",
           "2025-01-01", "m1", "INBOX", "", ""⟩ userId' nowIso' ai'
           (process_new_email (fun _ => none) (fun _ => "cid")
             ⟨"a@x.com", "A", "Subj", "body", "2025-01-01", "m1", "INBOX", "", ""⟩
             "u1" "now"
             (some ⟨true, [[("what", Val.vStr "c1")], [("what", Val.vStr "c2")]],
               [], "incoming", "sum"⟩) [])
         = process_new_email (fun _ => none) (fun _ => "cid")
             ⟨"a@x.com", "A", "Subj", "body", "2025-01-01", "m1", "INBOX", "", ""⟩
             "u1" "now"
             (some ⟨true, [[("what", Val.vStr "c1")], [("what", Val.vStr "c2")]],
               [], "incoming", "sum"⟩) [])) :=
  ⟨(process_new_email_dedupe (fun _ => none) (fun _ => "cid")
      ⟨"a@x.com", "A", "Subj", "body", "2025-01-01", "m1", "INBOX", "", ""⟩
      "u1" "now" none [[("message_id", Val.vStr "m1")]]).1 (by decide),
   (process_new_email_dedupe (fun _ => none) (fun _ => "cid")
      ⟨"a@x.com", "A", "Subj", "body", "2025-01-01", "m1", "INBOX", "", ""⟩
      "u1" "now"
      (some ⟨true, [[("what", Val.vStr "c1")], [("what", Val.vStr "c2")]],
        [], "incoming", "sum"⟩) []).2
     ⟨true, [[("what", Val.vStr "c1")], [("what", Val.vStr "c2")]],
       [], "incoming", "sum"⟩ rfl rfl (by decide) (by decide)⟩

/-! ## Delete / restore with TTL shadow (`routes/commitment_routes.py`)

`delete_commitment` looks the document up by its `commitment_id` field
(falling back to the document id), copies it into the Redis shadow under
`deleted_commitment:{user}:{cid}` and deletes the original.
`restore_deleted_commitment` reads the shadow entry, rewrites the
document under document id `cid` with `restored_at`/`updated_at` fresh,
`completed = false`, `status = "active"`, and deletes the shadow entry.
Shadow keys are per-user, so within one user's state the key is `cid`. -/

/-- The wrapper value stored in Redis by `backup_to_redis`. -/
structure ShadowEntry where
  commitmentId : String
  userId : String
  data : PyDict
  deletedAt : String
  deriving DecidableEq

/-- One user's Firestore commitment collection (document id → data) plus
their Redis shadow entries. -/
structure CommitmentStore where
  docs : List (String × PyDict)
  shadow : List (String × ShadowEntry)
  deriving DecidableEq

/-- `get_commitment_by_field`: query `commitment_id == cid` (first hit),
falling back to a lookup by document id. -/
def get_commitment_by_field (docs : List (String × PyDict)) (cid : String) :
    Option (String × PyDict) :=
  match docs.find? (fun p =>
    match dictGet p.2 "commitment_id" with
    | some (.vStr s) => s == cid
    | _ => false) with
  | some p => some p
  | none =>
    match assocGet docs cid with
    | some d => some (cid, d)
    | none => none

/-- `delete_commitment(user, cid)`: `none` models the 404 when neither
lookup finds the document; otherwise back up to the shadow (24 h `setex`)
and delete the original document. -/
def delete_commitment (st : CommitmentStore) (userId cid deletedAt : String) :
    Option CommitmentStore :=
  match get_commitment_by_field st.docs cid with
  | none => none
  | some (docId, data) =>
    some { docs := assocRemove st.docs docId
           shadow := assocSet st.shadow cid ⟨cid, userId, data, deletedAt⟩ }

/-- `restore_deleted_commitment(user, cid)`: `none` models the 404 when
the backup is absent; otherwise rewrite the document under id `cid` with
the four updated fields and drop the shadow entry. -/
def restore_deleted_commitment (st : CommitmentStore) (cid nowIso : String) :
    Option CommitmentStore :=
  match assocGet st.shadow cid with
  | none => none
  | some entry =>
    let d1 := dictSet entry.data "restored_at" (.vStr nowIso)
    let d2 := dictSet d1 "updated_at" (.vStr nowIso)
    let d3 := dictSet d2 "completed" (.vBool false)
    let d4 := dictSet d3 "status" (.vStr "active")
    some { docs := assocSet st.docs cid d4
           shadow := assocRemove st.shadow cid }

/-- C8: deleting a stored commitment (found by its `commitment_id` field,
stored — as `save_commitment_to_firestore` guarantees — under the same
opaque id) and then restoring it yields a document stored under the
original id, equal to the original field-for-field except that
`updated_at` is fresh, `restored_at` is added, `completed` is `false` and
`status` is `"active"`; the shadow entry is removed by the restore. -/
theorem delete_then_restore (st : CommitmentStore)
    (userId cid deletedAt nowIso : String) (data : PyDict)
    (hfind : st.docs.find? (fun p =>
        match dictGet p.2 "commitment_id" with
        | some (.vStr s) => s == cid
        | _ => false) = some (cid, data)) :
    ∃ (st1 st2 : CommitmentStore) (d : PyDict),
      delete_commitment st userId cid deletedAt = some st1 ∧
      restore_deleted_commitment st1 cid nowIso = some st2 ∧
      assocGet st2.docs cid = some d ∧
      (∀ k : String, k ≠ "restored_at" → k ≠ "updated_at" → k ≠ "completed" →
        k ≠ "status" → dictGet d k = dictGet data k) ∧
      dictGet d "restored_at" = some (.vStr nowIso) ∧
      dictGet d "updated_at" = some (.vStr nowIso) ∧
      dictGet d "completed" = some (.vBool false) ∧
      dictGet d "status" = some (.vStr "active") ∧
      assocGet st2.shadow cid = none := by
  have hget : get_commitment_by_field st.docs cid = some (cid, data) := by
    rw [get_commitment_by_field, hfind]
  have hdel : delete_commitment st userId cid deletedAt =
      some ⟨assocRemove st.docs cid,
            assocSet st.shadow cid ⟨cid, userId, data, deletedAt⟩⟩ := by
    rw [delete_commitment, hget]
  have hsh : assocGet (assocSet st.shadow cid
      (⟨cid, userId, data, deletedAt⟩ : ShadowEntry)) cid
      = some ⟨cid, userId, data, deletedAt⟩ :=
    assocGet_assocSet_self _ _ _
  have hres : restore_deleted_commitment
      ⟨assocRemove st.docs cid, assocSet st.shadow cid ⟨cid, userId, data, deletedAt⟩⟩
      cid nowIso =
      some ⟨assocSet (assocRemove st.docs cid) cid
              (dictSet (dictSet (dictSet (dictSet data "restored_at" (.vStr nowIso))
                "updated_at" (.vStr nowIso)) "completed" (.vBool false))
                "status" (.vStr "active")),
            assocRemove (assocSet st.shadow cid ⟨cid, userId, data, deletedAt⟩) cid⟩ := by
    rw [restore_deleted_commitment]
    rw [show assocGet (assocSet st.shadow cid
        (⟨cid, userId, data, deletedAt⟩ : ShadowEntry)) cid
        = some ⟨cid, userId, data, deletedAt⟩ from hsh]
  refine ⟨_, _, _, hdel, hres, assocGet_assocSet_self _ _ _, ?_, ?_, ?_, ?_, ?_,
    assocGet_assocRemove_self _ _⟩
  · intro k hk1 hk2 hk3 hk4
    show assocGet _ _ = _
    simp only [dictSet]
    rw [assocGet_assocSet_ne _ _ _ _ hk4, assocGet_assocSet_ne _ _ _ _ hk3,
        assocGet_assocSet_ne _ _ _ _ hk2, assocGet_assocSet_ne _ _ _ _ hk1]
    rfl
  · show assocGet _ _ = _
    simp only [dictSet]
    rw [assocGet_assocSet_ne _ _ _ _ (show ("restored_at" : String) ≠ "status"
          from by decide),
        assocGet_assocSet_ne _ _ _ _ (show ("restored_at" : String) ≠ "completed"
          from by decide),
        assocGet_assocSet_ne _ _ _ _ (show ("restored_at" : String) ≠ "updated_at"
          from by decide),
        assocGet_assocSet_self]
  · show assocGet _ _ = _
    simp only [dictSet]
    rw [assocGet_assocSet_ne _ _ _ _ (show ("updated_at" : String) ≠ "status"
          from by decide),
        assocGet_assocSet_ne _ _ _ _ (show ("updated_at" : String) ≠ "completed"
          from by decide),
        assocGet_assocSet_self]
  · show assocGet _ _ = _
    simp only [dictSet]
    rw [assocGet_assocSet_ne _ _ _ _ (show ("completed" : String) ≠ "status"
          from by decide),
        assocGet_assocSet_self]
  · exact assocGet_assocSet_self _ _ _

/-- Witness for C8 on a one-document store. -/
theorem delete_then_restore_witness :
    ([(("c1" : String), [("commitment_id", Val.vStr "c1"), ("what", Val.vStr "w"),
        ("completed", Val.vBool true), ("status", Val.vStr "completed")])].find?
      (fun p =>
        match dictGet p.2 "commitment_id" with
        | some (.vStr s) => s == "c1"
        | _ => false)
      = some ("c1", [("commitment_id", Val.vStr "c1"), ("what", Val.vStr "w"),
          ("completed", Val.vBool true), ("status", Val.vStr "completed")])) ∧
    (∃ (st1 st2 : CommitmentStore) (d : PyDict),
      delete_commitment
          ⟨[("c1", [("commitment_id", Val.vStr "c1"), ("what", Val.vStr "w"),
              ("completed", Val.vBool true), ("status", Val.vStr "completed")])], []⟩
          "u1" "c1" "del-ts" = some st1 ∧
      restore_deleted_commitment st1 "c1" "now-ts" = some st2 ∧
      assocGet st2.docs "c1" = some d ∧
      (∀ k : String, k ≠ "restored_at" → k ≠ "updated_at" → k ≠ "completed" →
        k ≠ "status" →
        dictGet d k = dictGet [("commitment_id", Val.vStr "c1"),
          ("what", Val.vStr "w"), ("completed", Val.vBool true),
          ("status", Val.vStr "completed")] k) ∧
      dictGet d "restored_at" = some (.vStr "now-ts") ∧
      dictGet d "updated_at" = some (.vStr "now-ts") ∧
      dictGet d "completed" = some (.vBool false) ∧
      dictGet d "status" = some (.vStr "active") ∧
      assocGet st2.shadow "c1" = none) :=
  ⟨by decide,
   delete_then_restore
     ⟨[("c1", [("commitment_id", Val.vStr "c1"), ("what", Val.vStr "w"),
         ("completed", Val.vBool true), ("status", Val.vStr "completed")])], []⟩
     "u1" "c1" "del-ts" "now-ts"
     [("commitment_id", Val.vStr "c1"), ("what", Val.vStr "w"),
      ("completed", Val.vBool true), ("status", Val.vStr "completed")]
     (by decide)⟩

/-! ## Connection state machine
(`services/composio/connection_state_manager.py`)

The user's `composio_connection` map has the fixed schema read by
`get_connection_state`.  `mark_disconnection` updates exactly the dotted
paths `composio_enabled`, `inbox_trigger_id`, `sent_trigger_id`;
`mark_reconnection` updates exactly `composio_enabled`,
`inbox_trigger_id`, `sent_trigger_id`, `entity_id`.  Neither touches
`first_connected_at` or `last_sync_time`. -/

/-- The `composio_connection` map of a user document. -/
structure ComposioConnection where
  firstConnectedAt : Option String
  isFirstTime : Bool
  composioEnabled : Bool
  inboxTriggerId : Option String
  sentTriggerId : Option String
  entityId : Option String
  lastSyncTime : Option String
  deriving DecidableEq

/-- `mark_disconnection(user_id)`. -/
def mark_disconnection (s : ComposioConnection) : ComposioConnection :=
  { s with composioEnabled := false, inboxTriggerId := none, sentTriggerId := none }

/-- `mark_reconnection(user_id, entity_id, inbox_trigger_id, sent_trigger_id)`. -/
def mark_reconnection (s : ComposioConnection)
    (entityId inboxTriggerId sentTriggerId : String) : ComposioConnection :=
  { s with composioEnabled := true
           inboxTriggerId := some inboxTriggerId
           sentTriggerId := some sentTriggerId
           entityId := some entityId }

/-- C9: once `first_connected_at` is set, neither disconnection nor
reconnection changes `first_connected_at` or `last_sync_time`;
disconnection clears exactly `composio_enabled` and the two trigger ids,
leaving `entity_id`, `is_first_time` and the rest unchanged. -/
theorem connection_state_frame (s : ComposioConnection) (ts : String)
    (entityId inboxTriggerId sentTriggerId : String)
    (hfc : s.firstConnectedAt = some ts) :
    (mark_disconnection s).firstConnectedAt = some ts ∧
    (mark_disconnection s).lastSyncTime = s.lastSyncTime ∧
    (mark_disconnection s).composioEnabled = false ∧
    (mark_disconnection s).inboxTriggerId = none ∧
    (mark_disconnection s).sentTriggerId = none ∧
    (mark_disconnection s).entityId = s.entityId ∧
    (mark_disconnection s).isFirstTime = s.isFirstTime ∧
    (mark_reconnection s entityId inboxTriggerId sentTriggerId).firstConnectedAt
      = some ts ∧
    (mark_reconnection s entityId inboxTriggerId sentTriggerId).lastSyncTime
      = s.lastSyncTime :=
  ⟨hfc, rfl, rfl, rfl, rfl, rfl, rfl, hfc, rfl⟩

/-- Witness for C9 at a concrete connected state. -/
theorem connection_state_frame_witness :
    (mark_disconnection ⟨some "t0", false, true, some "in1", some "s1",
        some "e1", some "t1"⟩).firstConnectedAt = some "t0" ∧
    (mark_disconnection ⟨some "t0", false, true, some "in1", some "s1",
        some "e1", some "t1"⟩).lastSyncTime =
      (⟨some "t0", false, true, some "in1", some "s1", some "e1", some "t1"⟩ :
        ComposioConnection).lastSyncTime ∧
    (mark_disconnection ⟨some "t0", false, true, some "in1", some "s1",
        some "e1", some "t1"⟩).composioEnabled = false ∧
    (mark_disconnection ⟨some "t0", false, true, some "in1", some "s1",
        some "e1", some "t1"⟩).inboxTriggerId = none ∧
    (mark_disconnection ⟨some "t0", false, true, some "in1", some "s1",
        some "e1", some "t1"⟩).sentTriggerId = none ∧
    (mark_disconnection ⟨some "t0", false, true, some "in1", some "s1",
        some "e1", some "t1"⟩).entityId =
      (⟨some "t0", false, true, some "in1", some "s1", some "e1", some "t1"⟩ :
        ComposioConnection).entityId ∧
    (mark_disconnection ⟨some "t0", false, true, some "in1", some "s1",
        some "e1", some "t1"⟩).isFirstTime =
      (⟨some "t0", false, true, some "in1", some "s1", some "e1", some "t1"⟩ :
        ComposioConnection).isFirstTime ∧
    (mark_reconnection ⟨some "t0", false, true, some "in1", some "s1",
        some "e1", some "t1"⟩ "e2" "in2" "s2").firstConnectedAt = some "t0" ∧
    (mark_reconnection ⟨some "t0", false, true, some "in1", some "s1",
        some "e1", some "t1"⟩ "e2" "in2" "s2").lastSyncTime =
      (⟨some "t0", false, true, some "in1", some "s1", some "e1", some "t1"⟩ :
        ComposioConnection).lastSyncTime :=
  connection_state_frame
    ⟨some "t0", false, true, some "in1", some "s1", some "e1", some "t1"⟩
    "t0" "e2" "in2" "s2" rfl

/-! ## Webhook credit gate (`credit_engine.py` `has_enough_credits` and
`main.py` `composio_webhook`)

`has_enough_credits` returns `False` when the user document does not
exist — `snap.exists` is checked before `to_dict`, so no exception is
raised.  The webhook handler validates the payload, gates on
`has_enough_credits`, and acknowledges with
`{"status": "skipped", "reason": "no_credits"}` when the gate fails. -/

/-- `float(value)` for the numeric values stored in credit fields. -/
def pyFloat : Val → ℚ
  | .vInt n => (n : ℚ)
  | .vRat q => q
  | .vBool b => if b then 1 else 0
  | _ => 0

/-- `has_enough_credits(user_id)` over the users collection `db`. -/
def has_enough_credits (db : String → Option PyDict) (userId : String) : Bool :=
  match db userId with
  | none => false
  | some data => decide (0 < pyFloat (pyGetD data "credits_remaining" (.vInt 0)))

/-- The fields `composio_webhook` reads from `body["data"]`
(`data.get(...)`, so each may be absent). -/
structure WebhookData where
  userId : Option String
  connectionNanoId : Option String
  connectionId : Option String
  messageId : Option String
  dataId : Option String

/-- The three acknowledgement shapes of `composio_webhook`. -/
inductive WebhookResponse where
  | errorMissingFields   -- {"status": "error", "reason": "missing_fields"}
  | skippedNoCredits     -- {"status": "skipped", "reason": "no_credits"}
  | queued               -- {"status": "ok"}, background task enqueued
  deriving DecidableEq

/-- Python truthiness of an optional string (`None` and `""` are falsy). -/
def strTruthy : Option String → Bool
  | none => false
  | some s => !(s == "")

/-- Python `a or b` on optional strings. -/
def pyOr (a b : Option String) : Option String := if strTruthy a then a else b

/-- `composio_webhook` from payload parse to acknowledgement. -/
def composio_webhook (db : String → Option PyDict) (d : WebhookData) :
    WebhookResponse :=
  let userId := d.userId
  let connectedAccountId := pyOr d.connectionNanoId d.connectionId
  let messageId := pyOr d.messageId d.dataId
  if !(strTruthy userId) || !(strTruthy connectedAccountId)
      || !(strTruthy messageId) then
    .errorMissingFields
  else if !(has_enough_credits db (userId.getD "")) then .skippedNoCredits
  else .queued

/-- C10: for a user id whose user document does not exist,
`has_enough_credits` returns `false` (rather than raising), and a
well-formed webhook naming that user is acknowledged with the
skipped/no-credits signal. -/
theorem unknown_user_webhook_skipped (db : String → Option PyDict)
    (d : WebhookData) (uid : String)
    (hu : d.userId = some uid) (hu2 : uid ≠ "")
    (hc : strTruthy (pyOr d.connectionNanoId d.connectionId) = true)
    (hm : strTruthy (pyOr d.messageId d.dataId) = true)
    (hdb : db uid = none) :
    has_enough_credits db uid = false ∧
    composio_webhook db d = .skippedNoCredits := by
  have hhec : has_enough_credits db uid = false := by
    rw [has_enough_credits, hdb]
  refine ⟨hhec, ?_⟩
  have hub : (uid == "") = false := beq_eq_false_iff_ne.mpr hu2
  have hut : strTruthy (some uid) = true := by
    show (!(uid == "")) = true
    rw [hub]
    rfl
  simp [composio_webhook, hu, hut, hc, hm, hhec]

/-- Witness for C10: an unknown user on a well-formed payload. -/
theorem unknown_user_webhook_skipped_witness :
    (⟨some "u1", some "acc", none, some "m1", none⟩ : WebhookData).userId
      = some "u1" ∧
    ("u1" : String) ≠ "" ∧
    strTruthy (pyOr (⟨some "u1", some "acc", none, some "m1", none⟩ :
        WebhookData).connectionNanoId
      (⟨some "u1", some "acc", none, some "m1", none⟩ :
        WebhookData).connectionId) = true ∧
    strTruthy (pyOr (⟨some "u1", some "acc", none, some "m1", none⟩ :
        WebhookData).messageId
      (⟨some "u1", some "acc", none, some "m1", none⟩ : WebhookData).dataId)
      = true ∧
    has_enough_credits (fun _ => none) "u1" = false ∧
    composio_webhook (fun _ => none)
        ⟨some "u1", some "acc", none, some "m1", none⟩ = .skippedNoCredits :=
  ⟨rfl, by decide, rfl, rfl,
   (unknown_user_webhook_skipped (fun _ => none)
      ⟨some "u1", some "acc", none, some "m1", none⟩ "u1" rfl (by decide)
      rfl rfl rfl).1,
   (unknown_user_webhook_skipped (fun _ => none)
      ⟨some "u1", some "acc", none, some "m1", none⟩ "u1" rfl (by decide)
      rfl rfl rfl).2⟩

end Clla
